import Mathlib

/-!
Shallow embedding of `src/library/jni/openslmediaplayer/source/AudioTrackStream.cpp`
(class `oslmp::impl::AudioTrackStream`).

Modelling conventions:
  * External collaborators (JNI environment, the Java `AudioTrack` Sink, the
    pthread API) are represented by explicit oracle parameters: the outcome of
    `GetJavaVM`, `AudioTrack::create`, `pthread_create`, `AudioTrack::play`,
    the per-iteration value of the cross-thread stop flag, and the value
    returned by each blocking `AudioTrack::write` call.
  * The worker loops are embedded as trace-producing functions: each run
    yields the list of externally visible actions (render-callback
    invocations, writes with their requested and reported sizes, ByteBuffer
    rewinds), driven by the stop-flag and write-result oracles plus a fuel
    bound on the number of iterations (the real loop may run forever; every
    theorem quantifies over the fuel).
  * Machine integers do not overflow in any quantity a claim touches, so
    sizes are `Nat` and write results (jint, possibly negative error codes)
    are `Int`.
-/

namespace OslmpSpec

/-- The `sample_format_type` argument of `init`: the two encodings its switch
accepts plus a catch-all constructor standing for every other enum value
(the switch's `default:` branch). -/
inductive SampleFormatType
  | s16
  | f32
  | otherFormat
  deriving DecidableEq, Repr

/-- The four result codes the file returns (OSLMP_RESULT_SUCCESS,
OSLMP_RESULT_ILLEGAL_ARGUMENT, OSLMP_RESULT_ILLEGAL_STATE,
OSLMP_RESULT_INTERNAL_ERROR), modelled as distinct constructors; their
numeric values are never compared in this file. -/
inductive OslmpResult
  | success
  | illegalArgument
  | illegalState
  | internalError
  deriving DecidableEq, Repr

/-- The sample-encoding tag stored in the created `AudioTrack`
(`AudioFormat::ENCODING_PCM_16BIT` / `ENCODING_PCM_FLOAT`; the header
defining the int32 constants is outside `src/`, and only their distinctness
is used by the dispatch in `sinkWriterThreadProcess`). `otherEncoding`
mirrors the dispatch switch's `default:` branch over an arbitrary int32. -/
inductive Encoding
  | pcm16bit
  | pcmFloat
  | otherEncoding
  deriving DecidableEq, Repr

/-- The fields of the created `AudioTrack` (the Sink) that the stream later
reads back: the encoding passed to `create`, the channel count
(`getChannelCount`), and the buffer-capacity argument of `create`
(`buffer_size_in_frames * buffer_block_count * 1`, line 133). -/
structure AudioTrack where
  encoding : Encoding
  channelCount : Nat
  bufferCapacity : Nat
  deriving DecidableEq, Repr

/-- The mutable fields of `AudioTrackStream`: `vm_` (held? ), `track_`
(the owned Sink handle, `none` = null), `pt_handle_` (`true` = a worker
thread handle is stored), `callback_func_` and `callback_args_` (pointers,
`none` = null, `some v` an opaque non-null value), `stop_request_`,
`buffer_size_in_frames_`, `buffer_block_count_`. -/
structure AudioTrackStream where
  hasVm : Bool
  track : Option AudioTrack
  ptHandle : Bool
  callbackFunc : Option Nat
  callbackArgs : Option Nat
  stopRequest : Bool
  bufferSizeInFrames : Nat
  bufferBlockCount : Nat
  deriving DecidableEq, Repr

/-- The constructor `AudioTrackStream::AudioTrackStream()`: every pointer
null, every counter zero, the stop flag clear. -/
def AudioTrackStream.mkInitial : AudioTrackStream :=
  { hasVm := false, track := none, ptHandle := false, callbackFunc := none,
    callbackArgs := none, stopRequest := false, bufferSizeInFrames := 0,
    bufferBlockCount := 0 }

/-- The `switch (format)` at the head of `init`: S16 and F32 map to their
encodings, everything else falls to `default:` (`none`, which `init` turns
into `OSLMP_RESULT_ILLEGAL_ARGUMENT`). -/
def sampleFormatEncoding : SampleFormatType → Option Encoding
  | .s16 => some .pcm16bit
  | .f32 => some .pcmFloat
  | .otherFormat => none

/-- What one call of `init` produces: the returned code, the post-call
fields, whether an `AudioTrack` object was allocated on this call
(`new AudioTrack()` was reached), and whether the previously stored Sink,
if any, had `release` called on it (the body of `init` contains no such
call, so this is `false` on every path). -/
structure InitOutcome where
  result : OslmpResult
  state : AudioTrackStream
  sinkAllocated : Bool
  oldSinkReleased : Bool
  deriving DecidableEq, Repr

/-- `AudioTrackStream::init` (lines 102-144). Oracles: `getJavaVmOk` is
`env->GetJavaVM(&vm) == JNI_OK`; `trackCreateOk` is
`track && track->create(...)` (the allocation itself is assumed to succeed
whenever `create` is reached, matching `sinkAllocated := true` there). -/
def AudioTrackStream.init (st : AudioTrackStream) (streamType : Int)
    (format : SampleFormatType) (sampleRateInHz numChannels : Nat)
    (blockSizeInFrames blockCount : Nat)
    (getJavaVmOk trackCreateOk : Bool) : InitOutcome :=
  match sampleFormatEncoding format with
  | none => ⟨.illegalArgument, st, false, false⟩
  | some encoding =>
    if numChannels ≠ 2 then ⟨.illegalArgument, st, false, false⟩
    else if getJavaVmOk = false then ⟨.internalError, st, false, false⟩
    else if trackCreateOk = false then ⟨.internalError, st, true, false⟩
    else
      ⟨.success,
        { st with
          hasVm := true,
          track := some ⟨encoding, numChannels, blockSizeInFrames * blockCount * 1⟩,
          bufferSizeInFrames := blockSizeInFrames,
          bufferBlockCount := blockCount },
        true, false⟩

/-- What one call of `start` produces: the returned code, the post-call
fields, and whether a worker thread was spawned. -/
structure StartOutcome where
  result : OslmpResult
  state : AudioTrackStream
  threadSpawned : Bool
  deriving DecidableEq, Repr

/-- `AudioTrackStream::start` (lines 146-173). `callback`/`args` are the
caller's pointers (`none` = null); `ptCreateResult` is the value returned by
`pthread_create` (0 = success). -/
def AudioTrackStream.start (st : AudioTrackStream)
    (callback args : Option Nat) (ptCreateResult : Int) : StartOutcome :=
  if callback = none then ⟨.illegalArgument, st, false⟩
  else if st.track = none then ⟨.illegalState, st, false⟩
  else
    let st1 := { st with callbackFunc := callback, callbackArgs := args }
    if ptCreateResult ≠ 0 then
      ⟨.internalError, { st1 with callbackFunc := none, callbackArgs := none }, false⟩
    else
      ⟨.success, { st1 with ptHandle := true }, true⟩

/-- The externally visible steps `stop` takes on its non-trivial path, in
order: raising `stop_request_`, then `pthread_join`. -/
inductive StopAction
  | setStopFlag
  | joinThread
  deriving DecidableEq, Repr

/-- What one call of `stop` produces. -/
structure StopOutcome where
  result : OslmpResult
  state : AudioTrackStream
  actions : List StopAction
  deriving DecidableEq, Repr

/-- `AudioTrackStream::stop` (lines 175-190): early success when no thread
handle is stored; otherwise set the flag, join, then clear the handle, the
callback pair and the flag. -/
def AudioTrackStream.stop (st : AudioTrackStream) : StopOutcome :=
  if st.ptHandle = false then ⟨.success, st, []⟩
  else
    ⟨.success,
      { st with
        ptHandle := false,
        callbackFunc := none,
        callbackArgs := none,
        stopRequest := false },
      [.setStopFlag, .joinThread]⟩

/-- The Initialized lifecycle state of the spec in terms of the fields: a
Sink handle is stored and no worker thread is running. -/
def inited (st : AudioTrackStream) : Bool :=
  st.track.isSome && !st.ptHandle

/-- One externally visible action of a sink-writer loop: a render-callback
invocation with the arguments the loop passes, a managed-array write
(`write(env, buffer, 0, num_data_write)` variants, element counts), a
ByteBuffer write (`write(env, bb.get(), bb.size(), WRITE_BLOCKING)`, byte
counts), or a `Buffer.rewind()` on the direct view. -/
inductive LoopEvent
  | callbackInvoked (format : SampleFormatType) (numChannels blockSizeInFrames : Nat)
      (args : Option Nat)
  | writeArray (requested result : Int)
  | writeByteBuffer (requestedBytes resultBytes : Int)
  | rewind
  deriving DecidableEq, Repr

/-- The `while (!stop_request_)` body of `sinkWriterThreadLoopS16`
(lines 259-270): invoke the callback into the short array, then a blocking
write of `num_data_write = num_channels * buffer_size_in_frames` elements;
a write result different from `num_data_write` breaks out. `i` counts
iterations (indexing the oracles); `fuel` bounds them. -/
def loopGoS16 (numChannels blockSizeInFrames : Nat) (args : Option Nat)
    (stopReq : Nat → Bool) (writeRes : Nat → Int) : Nat → Nat → List LoopEvent
  | _, 0 => []
  | i, fuel + 1 =>
    if stopReq i then []
    else
      LoopEvent.callbackInvoked .s16 numChannels blockSizeInFrames args ::
      LoopEvent.writeArray ((numChannels * blockSizeInFrames : Nat) : Int) (writeRes i) ::
      (if writeRes i ≠ ((numChannels * blockSizeInFrames : Nat) : Int) then []
       else loopGoS16 numChannels blockSizeInFrames args stopReq writeRes (i + 1) fuel)

/-- `AudioTrackStream::sinkWriterThreadLoopS16` (lines 243-271): allocate
one short array (`allocOk` = `env->NewShortArray(...)` returned non-null;
a null array returns before any iteration), then run the loop. -/
def sinkWriterThreadLoopS16 (numChannels blockSizeInFrames : Nat) (args : Option Nat)
    (allocOk : Bool) (stopReq : Nat → Bool) (writeRes : Nat → Int)
    (fuel : Nat) : List LoopEvent :=
  if allocOk = false then []
  else loopGoS16 numChannels blockSizeInFrames args stopReq writeRes 0 fuel

/-- The `while (!stop_request_)` body of `sinkWriterThreadLoopFloat`
(lines 301-312) as the source actually has it: the render-callback
invocation is commented out (lines 302-305), so each iteration only issues
the blocking write of the float array, which was pre-filled once with a
sine tone before the loop (lines 289-299, not an externally visible
event). -/
def loopGoFloat (numChannels blockSizeInFrames : Nat)
    (stopReq : Nat → Bool) (writeRes : Nat → Int) : Nat → Nat → List LoopEvent
  | _, 0 => []
  | i, fuel + 1 =>
    if stopReq i then []
    else
      LoopEvent.writeArray ((numChannels * blockSizeInFrames : Nat) : Int) (writeRes i) ::
      (if writeRes i ≠ ((numChannels * blockSizeInFrames : Nat) : Int) then []
       else loopGoFloat numChannels blockSizeInFrames stopReq writeRes (i + 1) fuel)

/-- `AudioTrackStream::sinkWriterThreadLoopFloat` (lines 273-313): allocate
one float array (`allocOk` = `env->NewFloatArray(...)` non-null), pre-fill
it with the sine tone, then run the loop. Note there is no callback
parameter: the stored callback is never read by this variant. -/
def sinkWriterThreadLoopFloat (numChannels blockSizeInFrames : Nat)
    (allocOk : Bool) (stopReq : Nat → Bool) (writeRes : Nat → Int)
    (fuel : Nat) : List LoopEvent :=
  if allocOk = false then []
  else loopGoFloat numChannels blockSizeInFrames stopReq writeRes 0 fuel

/-- The shared `while (!stop_request_)` body of the two ByteBuffer loop
variants (lines 330-340 and 358-368), which differ only in the format tag
and the sample size (`sizeof(int16_t)` = 2 vs `sizeof(float)` = 4): invoke
the callback into the native block, issue a blocking ByteBuffer write of
`num_data_write_in_bytes` bytes, break on a byte-count mismatch, otherwise
rewind the view and continue. -/
def loopGoByteBuffer (format : SampleFormatType)
    (numChannels blockSizeInFrames sizeofSample : Nat) (args : Option Nat)
    (stopReq : Nat → Bool) (writeRes : Nat → Int) : Nat → Nat → List LoopEvent
  | _, 0 => []
  | i, fuel + 1 =>
    if stopReq i then []
    else
      LoopEvent.callbackInvoked format numChannels blockSizeInFrames args ::
      LoopEvent.writeByteBuffer
        ((numChannels * blockSizeInFrames * sizeofSample : Nat) : Int) (writeRes i) ::
      (if writeRes i ≠ ((numChannels * blockSizeInFrames * sizeofSample : Nat) : Int) then []
       else LoopEvent.rewind ::
         loopGoByteBuffer format numChannels blockSizeInFrames sizeofSample args
           stopReq writeRes (i + 1) fuel)

/-- `AudioTrackStream::sinkWriterThreadLoopS16ByteBuffer` (lines 315-341):
wrap the native block in a direct view (`bbValid` = `bb.is_valid()`; an
invalid view returns before any iteration), then run the loop with
`sizeof(int16_t)` = 2. -/
def sinkWriterThreadLoopS16ByteBuffer (numChannels blockSizeInFrames : Nat)
    (args : Option Nat) (bbValid : Bool) (stopReq : Nat → Bool)
    (writeRes : Nat → Int) (fuel : Nat) : List LoopEvent :=
  if bbValid = false then []
  else loopGoByteBuffer .s16 numChannels blockSizeInFrames 2 args stopReq writeRes 0 fuel

/-- `AudioTrackStream::sinkWriterThreadLoopFloatByteBuffer` (lines 343-369):
same as the S16 ByteBuffer variant with `sizeof(float)` = 4. -/
def sinkWriterThreadLoopFloatByteBuffer (numChannels blockSizeInFrames : Nat)
    (args : Option Nat) (bbValid : Bool) (stopReq : Nat → Bool)
    (writeRes : Nat → Int) (fuel : Nat) : List LoopEvent :=
  if bbValid = false then []
  else loopGoByteBuffer .f32 numChannels blockSizeInFrames 4 args stopReq writeRes 0 fuel

/-- One externally visible action of `sinkWriterThreadProcess` on the Sink:
the `play` call (with whether it returned `AudioTrack::SUCCESS`), an event
of the selected loop variant, the `pause` call, the `stop` call. -/
inductive WorkerEvent
  | playCalled (ok : Bool)
  | loopEvent (e : LoopEvent)
  | pauseCalled
  | stopCalled
  deriving DecidableEq, Repr

/-- `AudioTrackStream::sinkWriterThreadProcess` (lines 209-241): call `play`;
when it succeeded, dispatch on `(track_->getAudioFormat(), supports_bb)` to
one of the four loop variants (an unrecognized encoding runs no loop), then
call `pause` and `stop` on the track in that order; when `play` failed,
nothing else is done. -/
def sinkWriterThreadProcess (encoding : Encoding)
    (numChannels blockSizeInFrames : Nat) (args : Option Nat)
    (playOk supportsBB allocOk : Bool)
    (stopReq : Nat → Bool) (writeRes : Nat → Int) (fuel : Nat) : List WorkerEvent :=
  WorkerEvent.playCalled playOk ::
  (if playOk then
    (match encoding, supportsBB with
      | .pcm16bit, true =>
          sinkWriterThreadLoopS16ByteBuffer numChannels blockSizeInFrames args
            allocOk stopReq writeRes fuel
      | .pcm16bit, false =>
          sinkWriterThreadLoopS16 numChannels blockSizeInFrames args
            allocOk stopReq writeRes fuel
      | .pcmFloat, true =>
          sinkWriterThreadLoopFloatByteBuffer numChannels blockSizeInFrames args
            allocOk stopReq writeRes fuel
      | .pcmFloat, false =>
          sinkWriterThreadLoopFloat numChannels blockSizeInFrames
            allocOk stopReq writeRes fuel
      | .otherEncoding, _ => []).map WorkerEvent.loopEvent
    ++ [WorkerEvent.pauseCalled, WorkerEvent.stopCalled]
  else [])

/-- Modelled from the spec: "encoding_sample_size (2 bytes for S16, 4 bytes
for F32)"; the size of one sample of the configured encoding. -/
def specEncodingSampleSize : SampleFormatType → Nat
  | .s16 => 2
  | .f32 => 4
  | .otherFormat => 0

/-- Modelled from the spec: "total sink buffer capacity = block_size_in_frames
× block_count × encoding_sample_size". -/
def specSinkBufferCapacity (format : SampleFormatType)
    (blockSizeInFrames blockCount : Nat) : Nat :=
  blockSizeInFrames * blockCount * specEncodingSampleSize format

/-- The rewind discipline of the direct-memory loops, over the trace: every
ByteBuffer write whose reported byte count equals the requested one is
immediately followed by a rewind; every ByteBuffer write whose reported
byte count differs is the last event of the trace (no rewind, no retry);
and the event after a rewind, if any, is a callback invocation. -/
def rewindDiscipline (t : List LoopEvent) : Prop :=
  (∀ i req r, t.get? i = some (LoopEvent.writeByteBuffer req r) →
      (r = req → t.get? (i + 1) = some LoopEvent.rewind) ∧
      (r ≠ req → t.get? (i + 1) = none)) ∧
  (∀ i, t.get? i = some LoopEvent.rewind →
      t.get? (i + 1) = none ∨
      ∃ f c n a, t.get? (i + 1) = some (LoopEvent.callbackInvoked f c n a))

/-- A ByteBuffer-loop trace is empty or opens with a callback invocation. -/
def headNilOrCallback (t : List LoopEvent) : Prop :=
  t = [] ∨ ∃ f c n a tl, t = LoopEvent.callbackInvoked f c n a :: tl

theorem rewindDiscipline_nil : rewindDiscipline [] := by
  constructor
  · intro i req r h
    simp [List.get?_nil] at h
  · intro i h
    simp [List.get?_nil] at h

theorem rewindDiscipline_final (format : SampleFormatType) (c f : Nat)
    (args : Option Nat) (B r : Int) (hne : r ≠ B) :
    rewindDiscipline
      [LoopEvent.callbackInvoked format c f args, LoopEvent.writeByteBuffer B r] := by
  constructor
  · intro j req rw h
    match j with
    | 0 => simp at h
    | 1 =>
      simp only [List.get?_cons_succ, List.get?_cons_zero, Option.some.injEq] at h
      obtain ⟨hB, hr⟩ := (LoopEvent.writeByteBuffer.injEq _ _ _ _).mp h
      subst hB; subst hr
      exact ⟨fun heq => absurd heq hne, fun _ => rfl⟩
    | j + 2 => simp [List.get?_cons_succ, List.get?_nil] at h
  · intro j h
    match j with
    | 0 => simp at h
    | 1 => simp at h
    | j + 2 => simp [List.get?_cons_succ, List.get?_nil] at h

theorem rewindDiscipline_iteration (format : SampleFormatType) (c f : Nat)
    (args : Option Nat) (B : Int) (rest : List LoopEvent)
    (hd : rewindDiscipline rest) (hh : headNilOrCallback rest) :
    rewindDiscipline
      (LoopEvent.callbackInvoked format c f args ::
       LoopEvent.writeByteBuffer B B :: LoopEvent.rewind :: rest) := by
  constructor
  · intro j req rw h
    match j with
    | 0 => simp at h
    | 1 =>
      simp only [List.get?_cons_succ, List.get?_cons_zero, Option.some.injEq] at h
      obtain ⟨hB, hr⟩ := (LoopEvent.writeByteBuffer.injEq _ _ _ _).mp h
      subst hB; subst hr
      exact ⟨fun _ => rfl, fun hne => absurd rfl hne⟩
    | 2 => simp at h
    | j + 3 =>
      simp only [List.get?_cons_succ] at h ⊢
      exact hd.1 j req rw h
  · intro j h
    match j with
    | 0 => simp at h
    | 1 => simp at h
    | 2 =>
      simp only [List.get?_cons_succ]
      rcases hh with hnil | ⟨f2, c2, n2, a2, tl, htl⟩
      · left
        rw [hnil]
        exact List.get?_nil
      · right
        exact ⟨f2, c2, n2, a2, by rw [htl]; exact List.get?_cons_zero⟩
    | j + 3 =>
      simp only [List.get?_cons_succ] at h ⊢
      exact hd.2 j h

theorem loopGoByteBuffer_discipline (format : SampleFormatType)
    (numChannels blockSizeInFrames sizeofSample : Nat) (args : Option Nat)
    (stopReq : Nat → Bool) (writeRes : Nat → Int) :
    ∀ fuel i,
      rewindDiscipline
        (loopGoByteBuffer format numChannels blockSizeInFrames sizeofSample args
          stopReq writeRes i fuel) ∧
      headNilOrCallback
        (loopGoByteBuffer format numChannels blockSizeInFrames sizeofSample args
          stopReq writeRes i fuel) := by
  intro fuel
  induction fuel with
  | zero =>
    intro i
    exact ⟨rewindDiscipline_nil, Or.inl rfl⟩
  | succ fuel ih =>
    intro i
    cases hstop : stopReq i with
    | true =>
      simp only [loopGoByteBuffer, hstop, if_true]
      exact ⟨rewindDiscipline_nil, Or.inl rfl⟩
    | false =>
      by_cases hw : writeRes i = ((numChannels * blockSizeInFrames * sizeofSample : Nat) : Int)
      · have hrec := ih (i + 1)
        simp only [loopGoByteBuffer, hstop, if_false, hw, ne_eq, not_true_eq_false,
          Bool.false_eq_true, ite_false]
        refine ⟨?_, Or.inr ⟨format, numChannels, blockSizeInFrames, args, _, rfl⟩⟩
        exact rewindDiscipline_iteration format numChannels blockSizeInFrames args _ _
          hrec.1 hrec.2
      · simp only [loopGoByteBuffer, hstop, if_false, hw, ne_eq, not_false_eq_true,
          Bool.false_eq_true, ite_true]
        refine ⟨?_, Or.inr ⟨format, numChannels, blockSizeInFrames, args, _, rfl⟩⟩
        exact rewindDiscipline_final format numChannels blockSizeInFrames args _ _ hw

/-- C1 (code bug): the managed-array F32 loop contradicts the claim that
every loop variant invokes the render callback once per iteration before
its write. At a concrete input (stereo, 256 frames, stop flag never set,
every write reporting the full 512 elements, 3 iterations) the embedded
`sinkWriterThreadLoopFloat` produces three writes and no callback
invocation at all — its callback call is commented out in the source
(lines 302-305) and a precomputed sine block is written instead — while
`sinkWriterThreadLoopS16` at the same input shows the intended
fill-then-write pattern, one callback before each write. -/
theorem C1_float_managed_loop_skips_callback :
    (sinkWriterThreadLoopFloat 2 256 true (fun _ => false) (fun _ => 512) 3 =
      [LoopEvent.writeArray 512 512, LoopEvent.writeArray 512 512,
       LoopEvent.writeArray 512 512]) ∧
    (sinkWriterThreadLoopS16 2 256 none true (fun _ => false) (fun _ => 512) 3 =
      [LoopEvent.callbackInvoked .s16 2 256 none, LoopEvent.writeArray 512 512,
       LoopEvent.callbackInvoked .s16 2 256 none, LoopEvent.writeArray 512 512,
       LoopEvent.callbackInvoked .s16 2 256 none, LoopEvent.writeArray 512 512]) := by
  exact ⟨rfl, rfl⟩

/-- C2: when `play` succeeds, the worker's trace is the `play` call, then the
selected loop variant's events (whatever exit path the loop takes), then
`pause` and then `stop`, in that order; when `play` fails, neither `pause`
nor `stop` is ever called. -/
theorem C2_pause_then_stop_after_loop (encoding : Encoding)
    (numChannels blockSizeInFrames : Nat) (args : Option Nat)
    (playOk supportsBB allocOk : Bool)
    (stopReq : Nat → Bool) (writeRes : Nat → Int) (fuel : Nat) :
    (playOk = true →
      ∃ loopEvs : List LoopEvent,
        sinkWriterThreadProcess encoding numChannels blockSizeInFrames args
            playOk supportsBB allocOk stopReq writeRes fuel =
          WorkerEvent.playCalled true ::
            (loopEvs.map WorkerEvent.loopEvent ++
             [WorkerEvent.pauseCalled, WorkerEvent.stopCalled])) ∧
    (playOk = false →
      sinkWriterThreadProcess encoding numChannels blockSizeInFrames args
          playOk supportsBB allocOk stopReq writeRes fuel =
        [WorkerEvent.playCalled false] ∧
      WorkerEvent.pauseCalled ∉
        sinkWriterThreadProcess encoding numChannels blockSizeInFrames args
          playOk supportsBB allocOk stopReq writeRes fuel ∧
      WorkerEvent.stopCalled ∉
        sinkWriterThreadProcess encoding numChannels blockSizeInFrames args
          playOk supportsBB allocOk stopReq writeRes fuel) := by
  cases playOk with
  | false =>
    refine ⟨fun h => absurd h (by simp), fun _ => ?_⟩
    refine ⟨rfl, ?_, ?_⟩ <;> simp [sinkWriterThreadProcess]
  | true =>
    exact ⟨fun _ => ⟨_, rfl⟩, fun h => absurd h (by simp)⟩

/-- C3: in both direct-memory (ByteBuffer) loop variants, every write whose
reported byte count equals the block's byte length is immediately followed
by a rewind of the view (in particular before any further callback
invocation), and a write whose reported byte count differs ends the trace
at once, with no rewind and no retry. -/
theorem C3_byteBuffer_rewind_after_each_successful_write
    (numChannels blockSizeInFrames : Nat) (args : Option Nat) (bbValid : Bool)
    (stopReq : Nat → Bool) (writeRes : Nat → Int) (fuel : Nat) :
    rewindDiscipline
      (sinkWriterThreadLoopS16ByteBuffer numChannels blockSizeInFrames args
        bbValid stopReq writeRes fuel) ∧
    rewindDiscipline
      (sinkWriterThreadLoopFloatByteBuffer numChannels blockSizeInFrames args
        bbValid stopReq writeRes fuel) := by
  cases bbValid with
  | false =>
    constructor <;>
      simp only [sinkWriterThreadLoopS16ByteBuffer,
        sinkWriterThreadLoopFloatByteBuffer, if_true] <;>
      exact rewindDiscipline_nil
  | true =>
    constructor
    · simp only [sinkWriterThreadLoopS16ByteBuffer, Bool.true_eq_false, if_false]
      exact (loopGoByteBuffer_discipline .s16 numChannels blockSizeInFrames 2 args
        stopReq writeRes fuel 0).1
    · simp only [sinkWriterThreadLoopFloatByteBuffer, Bool.true_eq_false, if_false]
      exact (loopGoByteBuffer_discipline .f32 numChannels blockSizeInFrames 4 args
        stopReq writeRes fuel 0).1

/-- A sample Sink handle for concrete states. -/
def sampleTrack : AudioTrack := ⟨.pcm16bit, 2, 1024⟩

/-- A concrete Initialized engine: Sink stored, no worker, flags clear. -/
def initedState : AudioTrackStream :=
  { hasVm := true, track := some sampleTrack, ptHandle := false,
    callbackFunc := none, callbackArgs := none, stopRequest := false,
    bufferSizeInFrames := 256, bufferBlockCount := 4 }

/-- A concrete Running engine: Sink stored, worker handle stored, callback
pair stored, stop flag clear. -/
def runningState : AudioTrackStream :=
  { hasVm := true, track := some sampleTrack, ptHandle := true,
    callbackFunc := some 1, callbackArgs := some 2, stopRequest := false,
    bufferSizeInFrames := 256, bufferBlockCount := 4 }

/-- A concrete state that is Initialized except that the stop flag is
(hypothetically) still set; used to show `start` never touches the flag. -/
def pendingStopState : AudioTrackStream :=
  { hasVm := true, track := some sampleTrack, ptHandle := false,
    callbackFunc := none, callbackArgs := none, stopRequest := true,
    bufferSizeInFrames := 256, bufferBlockCount := 4 }

/-- The engine states reachable from the freshly constructed object by any
sequence of `init` / `start` / `stop` calls, with arbitrary arguments and
arbitrary outcomes of the external calls. -/
inductive Reachable : AudioTrackStream → Prop
  | base : Reachable AudioTrackStream.mkInitial
  | stepInit (st : AudioTrackStream) (streamType : Int) (format : SampleFormatType)
      (sampleRateInHz numChannels blockSizeInFrames blockCount : Nat)
      (getJavaVmOk trackCreateOk : Bool) (h : Reachable st) :
      Reachable (st.init streamType format sampleRateInHz numChannels
        blockSizeInFrames blockCount getJavaVmOk trackCreateOk).state
  | stepStart (st : AudioTrackStream) (callback args : Option Nat)
      (ptCreateResult : Int) (h : Reachable st) :
      Reachable (st.start callback args ptCreateResult).state
  | stepStop (st : AudioTrackStream) (h : Reachable st) :
      Reachable st.stop.state

theorem init_state_stopRequest (st : AudioTrackStream) (streamType : Int)
    (format : SampleFormatType) (sampleRateInHz numChannels : Nat)
    (blockSizeInFrames blockCount : Nat) (getJavaVmOk trackCreateOk : Bool) :
    (st.init streamType format sampleRateInHz numChannels blockSizeInFrames
      blockCount getJavaVmOk trackCreateOk).state.stopRequest = st.stopRequest := by
  cases format <;>
    simp only [AudioTrackStream.init, sampleFormatEncoding] <;>
    (repeat' split) <;> rfl

theorem start_state_stopRequest (st : AudioTrackStream)
    (callback args : Option Nat) (ptCreateResult : Int) :
    (st.start callback args ptCreateResult).state.stopRequest = st.stopRequest := by
  simp only [AudioTrackStream.start]
  (repeat' split) <;> rfl

theorem stop_state_stopRequest (st : AudioTrackStream)
    (h : st.stopRequest = false) : st.stop.state.stopRequest = false := by
  simp only [AudioTrackStream.stop]
  split
  · exact h
  · rfl

/-- In every reachable engine state the stop flag is clear: the constructor
clears it and no lifecycle call leaves it set (in particular, `stop` clears
it again after the join). -/
theorem reachable_stopRequest_false (st : AudioTrackStream) (h : Reachable st) :
    st.stopRequest = false := by
  induction h with
  | base => rfl
  | stepInit st streamType format sampleRateInHz numChannels blockSizeInFrames
      blockCount getJavaVmOk trackCreateOk h ih =>
    rw [init_state_stopRequest]
    exact ih
  | stepStart st callback args ptCreateResult h ih =>
    rw [start_state_stopRequest]
    exact ih
  | stepStop st h ih =>
    exact stop_state_stopRequest st ih

/-- C4: `init` with a format outside {S16, F32} or with a channel count other
than 2 returns IllegalArgument, allocates no Sink and leaves every field of
the engine unchanged; with valid arguments (and a working `GetJavaVM`) a
Sink-creation failure makes `init` return InternalError. -/
theorem C4_init_invalid_args_and_create_failure (st : AudioTrackStream)
    (streamType : Int) (format : SampleFormatType)
    (sampleRateInHz numChannels blockSizeInFrames blockCount : Nat)
    (getJavaVmOk trackCreateOk : Bool) :
    ((format = .otherFormat ∨ numChannels ≠ 2) →
      st.init streamType format sampleRateInHz numChannels blockSizeInFrames
        blockCount getJavaVmOk trackCreateOk =
        ⟨.illegalArgument, st, false, false⟩) ∧
    ((format = .s16 ∨ format = .f32) → numChannels = 2 → getJavaVmOk = true →
      trackCreateOk = false →
      (st.init streamType format sampleRateInHz numChannels blockSizeInFrames
        blockCount getJavaVmOk trackCreateOk).result = .internalError) := by
  constructor
  · rintro (rfl | hch)
    · rfl
    · cases format <;> simp [AudioTrackStream.init, sampleFormatEncoding, hch]
  · rintro (rfl | rfl) rfl rfl rfl <;> rfl

/-- C5: `start` with a null callback returns IllegalArgument, spawns no
thread and changes nothing; and when the Sink is present but thread
creation fails, `start` returns InternalError, spawns no thread, leaves the
stored callback and args cleared, retains the Sink handle and the thread
handle, and so keeps an Initialized engine Initialized. -/
theorem C5_start_null_callback_and_thread_failure (st : AudioTrackStream)
    (cb : Nat) (args : Option Nat) (ptCreateResult : Int) :
    (st.start none args ptCreateResult = ⟨.illegalArgument, st, false⟩) ∧
    (st.track ≠ none → ptCreateResult ≠ 0 →
      (st.start (some cb) args ptCreateResult).result = .internalError ∧
      (st.start (some cb) args ptCreateResult).threadSpawned = false ∧
      (st.start (some cb) args ptCreateResult).state.callbackFunc = none ∧
      (st.start (some cb) args ptCreateResult).state.callbackArgs = none ∧
      (st.start (some cb) args ptCreateResult).state.track = st.track ∧
      (st.start (some cb) args ptCreateResult).state.ptHandle = st.ptHandle ∧
      (inited st = true →
        inited (st.start (some cb) args ptCreateResult).state = true)) := by
  constructor
  · rfl
  · intro htrack hpt
    simp [AudioTrackStream.start, htrack, hpt, inited]

/-- C6: `stop` with no worker-thread handle returns Success and changes
nothing; otherwise it returns Success after setting the stop flag and then
joining, and the post-state has the thread handle, the callback pair and
the stop flag all cleared, the Sink handle retained — an Initialized
engine. -/
theorem C6_stop_noop_or_join_cleanup (st : AudioTrackStream) :
    (st.ptHandle = false → st.stop = ⟨.success, st, []⟩) ∧
    (st.ptHandle = true →
      st.stop.result = .success ∧
      st.stop.actions = [.setStopFlag, .joinThread] ∧
      st.stop.state.ptHandle = false ∧
      st.stop.state.callbackFunc = none ∧
      st.stop.state.callbackArgs = none ∧
      st.stop.state.stopRequest = false ∧
      st.stop.state.track = st.track ∧
      (st.track.isSome = true → inited st.stop.state = true)) := by
  constructor
  · intro h
    simp [AudioTrackStream.stop, h]
  · intro h
    simp [AudioTrackStream.stop, h, inited]

/-- C7 counterexample: from the concrete Running state (Sink stored, worker
handle stored, hence not Initialized) a `start` with a non-null callback and
a successful `pthread_create` returns Success and spawns a second worker:
`start` checks only `track_`, never the thread handle, so the claim that it
cannot succeed outside Initialized is false on the code. -/
theorem C7_counterexample_start_succeeds_while_running :
    inited runningState = false ∧
    runningState.ptHandle = true ∧
    (runningState.start (some 7) (some 8) 0).result = .success ∧
    (runningState.start (some 7) (some 8) 0).threadSpawned = true := by decide

/-- C7 (amended): `start` returns IllegalState exactly when the callback is
non-null and no Sink handle is stored (before `init` or after a failed
`init`); and it returns Success exactly when the callback is non-null, a
Sink handle is stored and thread creation succeeds — the running/Initialized
distinction is never checked. -/
theorem C7_start_result_characterization (st : AudioTrackStream)
    (callback args : Option Nat) (ptCreateResult : Int) :
    ((st.start callback args ptCreateResult).result = .illegalState ↔
      callback ≠ none ∧ st.track = none) ∧
    ((st.start callback args ptCreateResult).result = .success ↔
      callback ≠ none ∧ st.track ≠ none ∧ ptCreateResult = 0) := by
  by_cases hcb : callback = none
  · simp [AudioTrackStream.start, hcb]
  · by_cases htr : st.track = none
    · simp [AudioTrackStream.start, hcb, htr]
    · by_cases hpt : ptCreateResult = 0
      · simp [AudioTrackStream.start, hcb, htr, hpt]
      · simp [AudioTrackStream.start, hcb, htr, hpt]

/-- C8 counterexample: from a concrete state whose stop flag is set, a
successful `start` spawns the worker and leaves the flag still set — the
body of `start` (lines 146-173) never writes `stop_request_`, so the claim
that `start` clears the stop flag before spawning is false on the code. -/
theorem C8_counterexample_start_preserves_set_stop_flag :
    pendingStopState.stopRequest = true ∧
    (pendingStopState.start (some 1) none 0).result = .success ∧
    (pendingStopState.start (some 1) none 0).threadSpawned = true ∧
    (pendingStopState.start (some 1) none 0).state.stopRequest = true := by decide

/-- C8 (amended): `start` stores the callback pair but leaves the stop flag
exactly as it found it; the flag is nonetheless false in every reachable
engine state (the constructor clears it and every lifecycle call leaves it
clear), so a worker spawned by `start` in any reachable state begins with
the stop flag false. -/
theorem C8_worker_spawned_with_clear_stop_flag (st : AudioTrackStream)
    (h : Reachable st) (callback args : Option Nat) (ptCreateResult : Int) :
    (st.start callback args ptCreateResult).state.stopRequest = st.stopRequest ∧
    st.stopRequest = false ∧
    (st.start callback args ptCreateResult).state.stopRequest = false := by
  refine ⟨start_state_stopRequest st callback args ptCreateResult,
    reachable_stopRequest_false st h, ?_⟩
  rw [start_state_stopRequest]
  exact reachable_stopRequest_false st h

theorem C8_witness_fresh_engine :
    (AudioTrackStream.mkInitial.start (some 1) none 0).state.stopRequest =
      AudioTrackStream.mkInitial.stopRequest ∧
    AudioTrackStream.mkInitial.stopRequest = false ∧
    (AudioTrackStream.mkInitial.start (some 1) none 0).state.stopRequest = false :=
  C8_worker_spawned_with_clear_stop_flag AudioTrackStream.mkInitial Reachable.base
    (some 1) none 0

/-- C9 counterexample: at the spec's own scenario (S16, 256 frames, 4
blocks, stereo) `init` stores a Sink whose buffer-capacity argument is
`256 * 4 * 1 = 1024` (line 133 multiplies by the literal 1), while the
claimed capacity `block_size_in_frames × block_count × encoding_sample_size`
is `256 * 4 * 2 = 2048`. -/
theorem C9_counterexample_capacity_ignores_sample_size :
    (AudioTrackStream.mkInitial.init 3 .s16 44100 2 256 4 true true).state.track =
      some ⟨.pcm16bit, 2, 1024⟩ ∧
    specSinkBufferCapacity .s16 256 4 = 2048 ∧
    (1024 : Nat) ≠ 2048 := by decide

/-- C9 (amended): for either supported format, a successful `init` opens the
Sink with buffer capacity `block_size_in_frames × block_count × 1` — the
multiplier is the literal 1, not the encoding sample size. -/
theorem C9_sink_capacity_frames_times_blocks (st : AudioTrackStream)
    (streamType : Int) (format : SampleFormatType)
    (sampleRateInHz blockSizeInFrames blockCount : Nat)
    (hf : format ≠ .otherFormat) :
    ∃ e, sampleFormatEncoding format = some e ∧
      (st.init streamType format sampleRateInHz 2 blockSizeInFrames blockCount
        true true).state.track =
        some ⟨e, 2, blockSizeInFrames * blockCount * 1⟩ := by
  cases format with
  | s16 => exact ⟨.pcm16bit, rfl, rfl⟩
  | f32 => exact ⟨.pcmFloat, rfl, rfl⟩
  | otherFormat => exact absurd rfl hf

theorem C9_witness_f32_init :
    ∃ e, sampleFormatEncoding .f32 = some e ∧
      (AudioTrackStream.mkInitial.init 3 .f32 48000 2 128 8 true true).state.track =
        some ⟨e, 2, 128 * 8 * 1⟩ :=
  C9_sink_capacity_frames_times_blocks AudioTrackStream.mkInitial 3 .f32 48000 128 8
    (by decide)

/-- C10: `init` checks no lifecycle state: called with valid arguments and
succeeding external calls on an engine that already holds a Sink, it
returns Success and overwrites the stored Sink handle with the newly
created one, without any `release` of the previous Sink; and no input
whatsoever makes `init` return IllegalState. -/
theorem C10_init_performs_no_state_check (st : AudioTrackStream)
    (t0 : AudioTrack) (h : st.track = some t0) (streamType : Int)
    (format : SampleFormatType)
    (sampleRateInHz blockSizeInFrames blockCount : Nat)
    (hf : format ≠ .otherFormat) :
    (st.init streamType format sampleRateInHz 2 blockSizeInFrames blockCount
      true true).result = .success ∧
    (∃ e, sampleFormatEncoding format = some e ∧
      (st.init streamType format sampleRateInHz 2 blockSizeInFrames blockCount
        true true).state.track =
        some ⟨e, 2, blockSizeInFrames * blockCount * 1⟩) ∧
    (st.init streamType format sampleRateInHz 2 blockSizeInFrames blockCount
      true true).oldSinkReleased = false ∧
    (∀ (st2 : AudioTrackStream) (streamType2 : Int) (format2 : SampleFormatType)
       (sampleRateInHz2 numChannels2 blockSizeInFrames2 blockCount2 : Nat)
       (vmOk2 createOk2 : Bool),
       (st2.init streamType2 format2 sampleRateInHz2 numChannels2
         blockSizeInFrames2 blockCount2 vmOk2 createOk2).result ≠ .illegalState) := by
  refine ⟨?_, ?_, ?_, ?_⟩
  · cases format with
    | s16 => rfl
    | f32 => rfl
    | otherFormat => exact absurd rfl hf
  · cases format with
    | s16 => exact ⟨.pcm16bit, rfl, rfl⟩
    | f32 => exact ⟨.pcmFloat, rfl, rfl⟩
    | otherFormat => exact absurd rfl hf
  · cases format with
    | s16 => rfl
    | f32 => rfl
    | otherFormat => exact absurd rfl hf
  · intro st2 streamType2 format2 sampleRateInHz2 numChannels2 blockSizeInFrames2
      blockCount2 vmOk2 createOk2
    cases format2 <;>
      simp only [AudioTrackStream.init, sampleFormatEncoding] <;>
      (repeat' split) <;> simp

theorem C10_witness_reinit_over_existing_sink :
    (initedState.init 3 .s16 44100 2 256 4 true true).result = .success ∧
    (∃ e, sampleFormatEncoding .s16 = some e ∧
      (initedState.init 3 .s16 44100 2 256 4 true true).state.track =
        some ⟨e, 2, 256 * 4 * 1⟩) ∧
    (initedState.init 3 .s16 44100 2 256 4 true true).oldSinkReleased = false ∧
    (∀ (st2 : AudioTrackStream) (streamType2 : Int) (format2 : SampleFormatType)
       (sampleRateInHz2 numChannels2 blockSizeInFrames2 blockCount2 : Nat)
       (vmOk2 createOk2 : Bool),
       (st2.init streamType2 format2 sampleRateInHz2 numChannels2
         blockSizeInFrames2 blockCount2 vmOk2 createOk2).result ≠ .illegalState) :=
  C10_init_performs_no_state_check initedState sampleTrack rfl 3 .s16 44100 256 4
    (by decide)

end OslmpSpec
